import Mathlib

/-!
Verification of the instruction-builder / signature-verification core of a
stateless Solana-style HTTP service (src/src/main.rs).

Each handler of the service is embedded as a pure Lean function:
  - `generateKeypair`  for `generate_keypair`
  - `createToken`      for `create_token`
  - `mintToken`        for `mint_token`
  - `verifyMessage`    for `verify_message`
  - `sendSol`          for `send_sol`
  - `sendToken`        for `send_token`

Bytes are modelled as `Nat` (< 256 where it matters), addresses as base-58
text decoded through the same algorithm the `bs58` crate uses, and the
base64 `STANDARD` engine (padded, canonical) is modelled byte for byte.
External cryptography (ed25519 point validity, scalar checks, signature
verification, seed-to-pubkey derivation) is abstracted as oracle
parameters, since those computations live in `ed25519_dalek` /
`solana_sdk`, not in this repository.
-/

/-! ## Base-58 codec (the `bs58` crate's alphabet and algorithm) -/

/-- The Bitcoin base-58 alphabet used by `bs58`. -/
def b58Alphabet : List Char :=
  "123456789ABCDEFGHJKLMNPQRSTUVWXYZabcdefghijkmnopqrstuvwxyz".data

/-- Value of one base-58 digit, `none` for a character outside the alphabet. -/
def b58DecChar (c : Char) : Option Nat :=
  b58Alphabet.findIdx? (· == c)

/-- Decode every character of the string, failing on the first invalid one. -/
def b58Digits : List Char → Option (List Nat)
  | [] => some []
  | c :: cs =>
    match b58DecChar c, b58Digits cs with
    | some d, some ds => some (d :: ds)
    | _, _ => none

/-- Leading `'1'` characters become leading zero bytes in `bs58` decoding. -/
def countLeadingOnes : List Char → Nat
  | '1' :: cs => countLeadingOnes cs + 1
  | _ => 0

/-- The big-endian number denoted by a base-58 digit sequence. -/
def b58Value (ds : List Nat) : Nat :=
  ds.foldl (fun acc d => acc * 58 + d) 0

/-- Little-endian base-256 digits of `n`, minimal length; fuelled so that the
definition is structural (hence kernel-reducible). `fuel = n` always
suffices because the value shrinks by a factor of 256 each step. -/
def natBytesLE : Nat → Nat → List Nat
  | 0, _ => []
  | fuel + 1, n => if n = 0 then [] else n % 256 :: natBytesLE fuel (n / 256)

/-- Minimal big-endian base-256 representation of `n` (empty for 0). -/
def natBytesBE (n : Nat) : List Nat :=
  (natBytesLE n n).reverse

/-- `bs58::decode(s).into_vec()`: all characters must be base-58 digits; the
result is one zero byte per leading `'1'` followed by the big-endian bytes
of the denoted number. -/
def base58Decode (s : String) : Option (List Nat) :=
  match b58Digits s.data with
  | none => none
  | some ds =>
    some (List.replicate (countLeadingOnes s.data) 0 ++ natBytesBE (b58Value ds))

/-- `Pubkey::from_str`: base-58 decode plus the 32-byte length check.  (The
SDK also pre-rejects strings longer than 44 characters, but every base-58
string of more than 44 characters decodes to more than 32 bytes, so the
observable success/failure behaviour is exactly this.) -/
def decodePubkey (s : String) : Option (List Nat) :=
  match base58Decode s with
  | none => none
  | some bs => if bs.length = 32 then some bs else none

/-- The big-endian number denoted by a byte sequence. -/
def beValue (bs : List Nat) : Nat :=
  bs.foldl (fun acc b => acc * 256 + b) 0

/-- Leading zero bytes become leading `'1'` characters in `bs58` encoding. -/
def countLeadingZeroBytes : List Nat → Nat
  | 0 :: bs => countLeadingZeroBytes bs + 1
  | _ => 0

/-- Little-endian base-58 digits of `n`, minimal length, fuelled like
`natBytesLE`. -/
def natB58LE : Nat → Nat → List Nat
  | 0, _ => []
  | fuel + 1, n => if n = 0 then [] else n % 58 :: natB58LE fuel (n / 58)

/-- `bs58` encoding (`Pubkey::to_string`): one `'1'` per leading zero byte,
then the base-58 digits of the big-endian value. -/
def base58Encode (bs : List Nat) : String :=
  ⟨List.replicate (countLeadingZeroBytes bs) '1' ++
    ((natB58LE (beValue bs) (beValue bs)).reverse.map
      (fun d => b58Alphabet.getD d '1'))⟩

/-! ## Base64 codec (`base64::engine::general_purpose::STANDARD`) -/

/-- The standard base64 alphabet. -/
def b64Alphabet : List Char :=
  "ABCDEFGHIJKLMNOPQRSTUVWXYZabcdefghijklmnopqrstuvwxyz0123456789+/".data

/-- Encode one 6-bit group. -/
def b64EncChar (n : Nat) : Char :=
  b64Alphabet.getD n 'A'

/-- Value of one base64 character, `none` outside the alphabet (and for `'='`). -/
def b64DecChar (c : Char) : Option Nat :=
  b64Alphabet.findIdx? (· == c)

/-- Padded base64 encoding of a byte list, three bytes per four characters. -/
def b64EncodeList : List Nat → List Char
  | [] => []
  | [b0] =>
    [b64EncChar (b0 / 4), b64EncChar (b0 % 4 * 16), '=', '=']
  | [b0, b1] =>
    [b64EncChar (b0 / 4), b64EncChar (b0 % 4 * 16 + b1 / 16),
     b64EncChar (b1 % 16 * 4), '=']
  | b0 :: b1 :: b2 :: rest =>
    b64EncChar (b0 / 4) :: b64EncChar (b0 % 4 * 16 + b1 / 16) ::
    b64EncChar (b1 % 16 * 4 + b2 / 64) :: b64EncChar (b2 % 64) ::
    b64EncodeList rest

/-- Canonical padded base64 decoding: length must be a multiple of four,
padding only in the final quartet, trailing bits must be zero (the
`STANDARD` engine's `RequireCanonical` / no-trailing-bits configuration). -/
def b64DecodeList : List Char → Option (List Nat)
  | [] => some []
  | c0 :: c1 :: c2 :: c3 :: rest =>
    match b64DecChar c0, b64DecChar c1 with
    | some v0, some v1 =>
      if c2 = '=' then
        if c3 = '=' then
          if rest = [] then
            if v1 % 16 = 0 then some [v0 * 4 + v1 / 16] else none
          else none
        else none
      else
        match b64DecChar c2 with
        | some v2 =>
          if c3 = '=' then
            if rest = [] then
              if v2 % 4 = 0 then
                some [v0 * 4 + v1 / 16, v1 % 16 * 16 + v2 / 4]
              else none
            else none
          else
            match b64DecChar c3 with
            | some v3 =>
              match b64DecodeList rest with
              | some bs =>
                some ((v0 * 4 + v1 / 16) :: (v1 % 16 * 16 + v2 / 4) ::
                      (v2 % 4 * 64 + v3) :: bs)
              | none => none
            | none => none
        | none => none
    | _, _ => none
  | _ => none

/-- `general_purpose::STANDARD.encode`. -/
def base64Encode (bs : List Nat) : String :=
  ⟨b64EncodeList bs⟩

/-- `general_purpose::STANDARD.decode`. -/
def base64Decode (s : String) : Option (List Nat) :=
  b64DecodeList s.data

/-! ## Fixed program identifiers -/

/-- The SPL token program address text used verbatim in `create_token`,
`mint_token` and `send_token`. -/
def tokenProgramStr : String := "TokenkegQfeZyiNwAJbNbGKPFXCWuBvf9Ss623VQ5DA"

/-- `Pubkey::from_str(tokenProgramStr).unwrap()` — the 32 raw bytes; the
`unwrap` is justified by `decodePubkey_tokenProgramStr` below. -/
def tokenProgramId : List Nat := (decodePubkey tokenProgramStr).getD []

/-- `system_program::id()` — the all-zero system program address. -/
def systemProgramId : List Nat := List.replicate 32 0

/-! ## Request and response shapes (mirroring the serde structs) -/

/-- Request body of `create_token`. -/
structure CreateTokenRequest where
  mintAuthority : String
  mint : String
  decimals : Nat
deriving DecidableEq

/-- The `AccountMetaInfo` serialization struct (`pubkey`, `is_signer`,
`is_writable`). -/
structure AccountMetaInfo where
  pubkey : String
  isSigner : Bool
  isWritable : Bool
deriving DecidableEq

/-- Success payload of `create_token` and `mint_token`: program id text,
account-role list, raw instruction bytes (base64-encoded only at the JSON
boundary). -/
structure InstructionResponse where
  programId : String
  accounts : List AccountMetaInfo
  instructionData : List Nat
deriving DecidableEq

/-- Request body of `mint_token`. -/
structure MintTokenRequest where
  mint : String
  destination : String
  authority : String
  amount : Nat
deriving DecidableEq

/-- Request body of `verify_message`. -/
structure VerifyMessageRequest where
  message : String
  signature : String
  pubkey : String
deriving DecidableEq

/-- The `VerifyMessageResponseData` struct. -/
structure VerifyMessageResponseData where
  valid : Bool
  message : String
  pubkey : String
deriving DecidableEq

/-- Request body of `send_sol` (`from` and `to` are Lean keywords, hence
`fromAddr` / `toAddr`). -/
structure SendSolRequest where
  fromAddr : String
  toAddr : String
  lamports : Nat
deriving DecidableEq

/-- Success payload of `send_sol`: the accounts are plain address strings. -/
structure SendSolResponse where
  programId : String
  accounts : List String
  instructionData : List Nat
deriving DecidableEq

/-- Request body of `send_token`. -/
structure SendTokenRequest where
  destination : String
  mint : String
  owner : String
  amount : Nat
deriving DecidableEq

/-- The `SendTokenAccountInfo` struct (only `pubkey` and `isSigner`). -/
structure SendTokenAccountInfo where
  pubkey : String
  isSigner : Bool
deriving DecidableEq

/-- Success payload of `send_token`. -/
structure SendTokenResponse where
  programId : String
  accounts : List SendTokenAccountInfo
  instructionData : List Nat
deriving DecidableEq

/-- Response of `generate_keypair`. -/
structure KeypairResponse where
  pubkey : String
  secret : String
deriving DecidableEq

/-- Results are compared up to decidable equality so that witnesses can be
checked by evaluation. -/
instance instDecEqExcept {ε α : Type} [DecidableEq ε] [DecidableEq α] :
    DecidableEq (Except ε α) := fun a b =>
  match a, b with
  | .error e, .error f =>
    if h : e = f then isTrue (congrArg Except.error h)
    else isFalse (fun hc => h (Except.error.inj hc))
  | .error _, .ok _ => isFalse (fun hc => Except.noConfusion hc)
  | .ok _, .error _ => isFalse (fun hc => Except.noConfusion hc)
  | .ok a, .ok b =>
    if h : a = b then isTrue (congrArg Except.ok h)
    else isFalse (fun hc => h (Except.ok.inj hc))

/-- `u64::to_le_bytes`: the eight little-endian bytes of `n` (for `n < 2^64`
this is exact; higher bits are truncated just as a `u64` cannot hold them). -/
def u64le (n : Nat) : List Nat :=
  [n % 256, n / 256 % 256, n / 65536 % 256, n / 16777216 % 256,
   n / 4294967296 % 256, n / 1099511627776 % 256,
   n / 281474976710656 % 256, n / 72057594037927936 % 256]

/-- Little-endian read-back of a byte list as an unsigned integer. -/
def leBytesToNat (bs : List Nat) : Nat :=
  bs.foldr (fun b acc => b + 256 * acc) 0

/-- UTF-8 bytes of a string (`str::as_bytes`). -/
def strBytes (s : String) : List Nat :=
  s.toUTF8.toList.map (fun b => b.toNat)

/-! ## The six handlers -/

/-- `generate_keypair`, with the two external effects abstracted: `seed` is
the 32 random bytes drawn from the secure source and `derive` is the
ed25519 seed-to-public-key derivation.  `Keypair::to_bytes` is the
64-byte concatenation `seed ++ derive seed`; the response is the base-58
public key text and the base64 secret. -/
def generateKeypair (derive : List Nat → List Nat) (seed : List Nat) :
    KeypairResponse :=
  { pubkey := base58Encode (derive seed),
    secret := base64Encode (seed ++ derive seed) }

/-- `create_token`: validate `mintAuthority` then `mint`; accounts are
`AccountMeta::new(mint, true)` (writable, signer) and
`AccountMeta::new_readonly(mint_authority, true)` (read-only, signer);
data is `[0, decimals] ++ mint_authority ++ [0]`. -/
def createToken (req : CreateTokenRequest) :
    Except String InstructionResponse :=
  match decodePubkey req.mintAuthority with
  | none => .error "Invalid mintAuthority pubkey"
  | some mintAuthority =>
    match decodePubkey req.mint with
    | none => .error "Invalid mint pubkey"
    | some mint =>
      .ok
        { programId := base58Encode tokenProgramId,
          accounts :=
            [{ pubkey := base58Encode mint, isSigner := true,
               isWritable := true },
             { pubkey := base58Encode mintAuthority, isSigner := true,
               isWritable := false }],
          instructionData := 0 :: req.decimals :: (mintAuthority ++ [0]) }

/-- `mint_token`: validate `mint`, `destination`, `authority` in that order;
no amount check; data is `[7] ++ amount.to_le_bytes()`. -/
def mintToken (req : MintTokenRequest) :
    Except String InstructionResponse :=
  match decodePubkey req.mint with
  | none => .error "Invalid mint pubkey"
  | some mint =>
    match decodePubkey req.destination with
    | none => .error "Invalid destination pubkey"
    | some destination =>
      match decodePubkey req.authority with
      | none => .error "Invalid authority pubkey"
      | some authority =>
        .ok
          { programId := base58Encode tokenProgramId,
            accounts :=
              [{ pubkey := base58Encode mint, isSigner := false,
                 isWritable := true },
               { pubkey := base58Encode destination, isSigner := false,
                 isWritable := true },
               { pubkey := base58Encode authority, isSigner := true,
                 isWritable := false }],
            instructionData := 7 :: u64le req.amount }

/-- `verify_message`, with the `ed25519_dalek` internals abstracted:
`pkOk b` is what `PublicKey::from_bytes` checks beyond the 32-byte length
(point decompression), `sigOk b` is what `Signature::from_bytes` checks
beyond the 64-byte length (scalar canonicity), and `verify pk msg sig`
is the actual curve verification. -/
def verifyMessage (pkOk : List Nat → Bool) (sigOk : List Nat → Bool)
    (verify : List Nat → List Nat → List Nat → Bool)
    (req : VerifyMessageRequest) :
    Except String VerifyMessageResponseData :=
  match base58Decode req.pubkey with
  | none => .error "Invalid base58 pubkey"
  | some pkBytes =>
    if pkBytes.length = 32 ∧ pkOk pkBytes then
      match base64Decode req.signature with
      | none => .error "Invalid base64 signature"
      | some sigBytes =>
        if sigBytes.length = 64 ∧ sigOk sigBytes then
          .ok
            { valid := verify pkBytes (strBytes req.message) sigBytes,
              message := req.message,
              pubkey := req.pubkey }
        else .error "Invalid signature bytes"
    else .error "Invalid public key bytes"

/-- `send_sol`: validate `from` then `to`, then reject zero lamports; the
program is `system_program::id()`; accounts are plain address strings;
data is `[2] ++ lamports.to_le_bytes()`. -/
def sendSol (req : SendSolRequest) : Except String SendSolResponse :=
  match decodePubkey req.fromAddr with
  | none => .error "Invalid sender pubkey"
  | some fromPubkey =>
    match decodePubkey req.toAddr with
    | none => .error "Invalid recipient pubkey"
    | some toPubkey =>
      if req.lamports = 0 then
        .error "Lamports must be greater than zero"
      else
        .ok
          { programId := base58Encode systemProgramId,
            accounts := [base58Encode fromPubkey, base58Encode toPubkey],
            instructionData := 2 :: u64le req.lamports }

/-- `send_token`: validate `destination`, `mint`, `owner` in that order,
then reject zero amount; accounts expose only `pubkey` and `isSigner`;
data is `[3] ++ amount.to_le_bytes()`. -/
def sendToken (req : SendTokenRequest) : Except String SendTokenResponse :=
  match decodePubkey req.destination with
  | none => .error "Invalid destination pubkey"
  | some destination =>
    match decodePubkey req.mint with
    | none => .error "Invalid mint pubkey"
    | some mint =>
      match decodePubkey req.owner with
      | none => .error "Invalid owner pubkey"
      | some owner =>
        if req.amount = 0 then
          .error "Amount must be greater than zero"
        else
          .ok
            { programId := base58Encode tokenProgramId,
              accounts :=
                [{ pubkey := base58Encode destination, isSigner := false },
                 { pubkey := base58Encode mint, isSigner := false },
                 { pubkey := base58Encode owner, isSigner := true }],
              instructionData := 3 :: u64le req.amount }

/-! ## Concrete sample inputs used by witnesses -/

/-- The system program address text: a canonical 32-byte address (all zero
bytes). -/
def systemStr : String := "11111111111111111111111111111111"

/-- A string that is not valid base-58 (`'0'` is outside the alphabet). -/
def badB58Str : String := "0"

/-- A valid base-58 string that decodes to a single byte, not 32. -/
def shortB58Str : String := "1"

/-- A structurally-valid-by-fiat oracle for witness instantiations: the
point/scalar checks live in `ed25519_dalek`, outside this repository. -/
def anyBytesOk : List Nat → Bool := fun _ => true

/-- A verification oracle that never matches, for witness instantiations. -/
def neverVerify : List Nat → List Nat → List Nat → Bool := fun _ _ _ => false

/-- A fixed seed-to-public-key derivation for witness instantiations. -/
def constDerive : List Nat → List Nat := fun _ => List.replicate 32 1

/-- A base64 signature text: 64 zero bytes, encoded. -/
def zeroSigStr : String := base64Encode (List.replicate 64 0)

/-- A string that is not valid base64 (`'!'` is outside the alphabet). -/
def badB64Str : String := "!"

/-- A concrete `create_token` request with two valid addresses. -/
def sampleCreateReq : CreateTokenRequest :=
  { mintAuthority := tokenProgramStr, mint := systemStr, decimals := 6 }

/-- The response `create_token` produces for `sampleCreateReq`. -/
def sampleCreateResp : InstructionResponse :=
  { programId := base58Encode tokenProgramId,
    accounts :=
      [{ pubkey := base58Encode systemProgramId, isSigner := true,
         isWritable := true },
       { pubkey := base58Encode tokenProgramId, isSigner := true,
         isWritable := false }],
    instructionData := 0 :: 6 :: (tokenProgramId ++ [0]) }

/-- A concrete `mint_token` request with three valid addresses. -/
def sampleMintReq : MintTokenRequest :=
  { mint := systemStr, destination := systemStr,
    authority := tokenProgramStr, amount := 1000 }

/-- The response `mint_token` produces for `sampleMintReq`. -/
def sampleMintResp : InstructionResponse :=
  { programId := base58Encode tokenProgramId,
    accounts :=
      [{ pubkey := base58Encode systemProgramId, isSigner := false,
         isWritable := true },
       { pubkey := base58Encode systemProgramId, isSigner := false,
         isWritable := true },
       { pubkey := base58Encode tokenProgramId, isSigner := true,
         isWritable := false }],
    instructionData := 7 :: u64le 1000 }

/-- A concrete `send_sol` request with two valid addresses. -/
def sampleSolReq : SendSolRequest :=
  { fromAddr := systemStr, toAddr := tokenProgramStr, lamports := 5 }

/-- The response `send_sol` produces for `sampleSolReq`. -/
def sampleSolResp : SendSolResponse :=
  { programId := base58Encode systemProgramId,
    accounts := [base58Encode systemProgramId, base58Encode tokenProgramId],
    instructionData := 2 :: u64le 5 }

/-- A concrete `send_token` request with three valid addresses. -/
def sampleTokenReq : SendTokenRequest :=
  { destination := systemStr, mint := tokenProgramStr,
    owner := systemStr, amount := 3 }

/-- The response `send_token` produces for `sampleTokenReq`. -/
def sampleTokenResp : SendTokenResponse :=
  { programId := base58Encode tokenProgramId,
    accounts :=
      [{ pubkey := base58Encode systemProgramId, isSigner := false },
       { pubkey := base58Encode tokenProgramId, isSigner := false },
       { pubkey := base58Encode systemProgramId, isSigner := true }],
    instructionData := 3 :: u64le 3 }

/-- `sampleSolReq` with a zero amount. -/
def sampleSolReq0 : SendSolRequest :=
  { fromAddr := systemStr, toAddr := tokenProgramStr, lamports := 0 }

/-- `sampleTokenReq` with a zero amount. -/
def sampleTokenReq0 : SendTokenRequest :=
  { destination := systemStr, mint := tokenProgramStr,
    owner := systemStr, amount := 0 }

/-- `sampleMintReq` with a zero amount. -/
def sampleMintReq0 : MintTokenRequest :=
  { mint := systemStr, destination := systemStr,
    authority := tokenProgramStr, amount := 0 }

/-- The token program text decodes (so the `unwrap` in the source cannot
panic) and `tokenProgramId` is its 32 bytes. -/
theorem decodePubkey_tokenProgramStr :
    decodePubkey tokenProgramStr = some tokenProgramId := by decide

/-- `Pubkey::to_string` of the token program id gives back the source text. -/
theorem base58Encode_tokenProgramId :
    base58Encode tokenProgramId = tokenProgramStr := by decide

/-- `Pubkey::to_string` of the system program id is 32 ones. -/
theorem base58Encode_systemProgramId :
    base58Encode systemProgramId = "11111111111111111111111111111111" := by
  decide

/-! ## Helper lemmas -/

/-- Anything `decodePubkey` accepts is exactly 32 bytes long. -/
theorem decodePubkey_length {s : String} {b : List Nat}
    (h : decodePubkey s = some b) : b.length = 32 := by
  cases hd : base58Decode s with
  | none => simp [decodePubkey, hd] at h
  | some bs =>
    simp only [decodePubkey, hd] at h
    by_cases h32 : bs.length = 32
    · rw [if_pos h32] at h
      cases h
      exact h32
    · rw [if_neg h32] at h
      exact absurd h (by simp)

/-- Reading the eight little-endian bytes back reproduces any `u64`. -/
theorem leBytesToNat_u64le {n : Nat} (h : n < 18446744073709551616) :
    leBytesToNat (u64le n) = n := by
  simp only [u64le, leBytesToNat, List.foldr]
  omega

/-- Decoding inverts encoding on each 6-bit group. -/
theorem b64DecChar_b64EncChar : ∀ n, n < 64 → b64DecChar (b64EncChar n) = some n := by
  decide

/-- No 6-bit group encodes to the padding character. -/
theorem b64EncChar_ne_pad : ∀ n, n < 64 → ¬ b64EncChar n = '=' := by
  decide

/-- Canonical padded base64 decoding inverts encoding on byte lists. -/
theorem b64DecodeList_b64EncodeList :
    ∀ l : List Nat, (∀ b ∈ l, b < 256) →
      b64DecodeList (b64EncodeList l) = some l := by
  intro l
  induction l using b64EncodeList.induct with
  | case1 => intro _; rfl
  | case2 b0 =>
    intro h
    have hb0 : b0 < 256 := h b0 (by simp)
    have h1 : b64DecChar (b64EncChar (b0 / 4)) = some (b0 / 4) :=
      b64DecChar_b64EncChar _ (by omega)
    have h2 : b64DecChar (b64EncChar (b0 % 4 * 16)) = some (b0 % 4 * 16) :=
      b64DecChar_b64EncChar _ (by omega)
    simp [b64EncodeList, b64DecodeList, h1, h2]
    omega
  | case3 b0 b1 =>
    intro h
    have hb0 : b0 < 256 := h b0 (by simp)
    have hb1 : b1 < 256 := h b1 (by simp)
    have h1 : b64DecChar (b64EncChar (b0 / 4)) = some (b0 / 4) :=
      b64DecChar_b64EncChar _ (by omega)
    have h2 : b64DecChar (b64EncChar (b0 % 4 * 16 + b1 / 16)) =
        some (b0 % 4 * 16 + b1 / 16) :=
      b64DecChar_b64EncChar _ (by omega)
    have h3 : b64DecChar (b64EncChar (b1 % 16 * 4)) = some (b1 % 16 * 4) :=
      b64DecChar_b64EncChar _ (by omega)
    have hne : ¬ b64EncChar (b1 % 16 * 4) = '=' :=
      b64EncChar_ne_pad _ (by omega)
    simp [b64EncodeList, b64DecodeList, h1, h2, h3, hne]
    omega
  | case4 b0 b1 b2 rest ih =>
    intro h
    have hb0 : b0 < 256 := h b0 (by simp)
    have hb1 : b1 < 256 := h b1 (by simp)
    have hb2 : b2 < 256 := h b2 (by simp)
    have hrest := ih (fun b hb => h b (by simp [hb]))
    have h1 : b64DecChar (b64EncChar (b0 / 4)) = some (b0 / 4) :=
      b64DecChar_b64EncChar _ (by omega)
    have h2 : b64DecChar (b64EncChar (b0 % 4 * 16 + b1 / 16)) =
        some (b0 % 4 * 16 + b1 / 16) :=
      b64DecChar_b64EncChar _ (by omega)
    have h3 : b64DecChar (b64EncChar (b1 % 16 * 4 + b2 / 64)) =
        some (b1 % 16 * 4 + b2 / 64) :=
      b64DecChar_b64EncChar _ (by omega)
    have h4 : b64DecChar (b64EncChar (b2 % 64)) = some (b2 % 64) :=
      b64DecChar_b64EncChar _ (by omega)
    have hne1 : ¬ b64EncChar (b1 % 16 * 4 + b2 / 64) = '=' :=
      b64EncChar_ne_pad _ (by omega)
    have hne2 : ¬ b64EncChar (b2 % 64) = '=' :=
      b64EncChar_ne_pad _ (by omega)
    simp [b64EncodeList, b64DecodeList, h1, h2, h3, h4, hne1, hne2, hrest]
    omega
/-- Successful `create_token` run, fully characterised. -/
theorem createToken_eq_ok (req : CreateTokenRequest) {auth mint : List Nat}
    (hA : decodePubkey req.mintAuthority = some auth)
    (hM : decodePubkey req.mint = some mint) :
    createToken req = Except.ok
      { programId := base58Encode tokenProgramId,
        accounts :=
          [{ pubkey := base58Encode mint, isSigner := true,
             isWritable := true },
           { pubkey := base58Encode auth, isSigner := true,
             isWritable := false }],
        instructionData := 0 :: req.decimals :: (auth ++ [0]) } := by
  simp [createToken, hA, hM]

/-- Successful `mint_token` run, fully characterised. -/
theorem mintToken_eq_ok (req : MintTokenRequest) {m d a : List Nat}
    (hm : decodePubkey req.mint = some m)
    (hd : decodePubkey req.destination = some d)
    (ha : decodePubkey req.authority = some a) :
    mintToken req = Except.ok
      { programId := base58Encode tokenProgramId,
        accounts :=
          [{ pubkey := base58Encode m, isSigner := false, isWritable := true },
           { pubkey := base58Encode d, isSigner := false, isWritable := true },
           { pubkey := base58Encode a, isSigner := true, isWritable := false }],
        instructionData := 7 :: u64le req.amount } := by
  simp [mintToken, hm, hd, ha]

/-- Successful `send_sol` run, fully characterised. -/
theorem sendSol_eq_ok (req : SendSolRequest) {f t : List Nat}
    (hf : decodePubkey req.fromAddr = some f)
    (ht : decodePubkey req.toAddr = some t)
    (h0 : req.lamports ≠ 0) :
    sendSol req = Except.ok
      { programId := base58Encode systemProgramId,
        accounts := [base58Encode f, base58Encode t],
        instructionData := 2 :: u64le req.lamports } := by
  simp [sendSol, hf, ht, h0]

/-- Successful `send_token` run, fully characterised. -/
theorem sendToken_eq_ok (req : SendTokenRequest) {d m o : List Nat}
    (hd : decodePubkey req.destination = some d)
    (hm : decodePubkey req.mint = some m)
    (ho : decodePubkey req.owner = some o)
    (h0 : req.amount ≠ 0) :
    sendToken req = Except.ok
      { programId := base58Encode tokenProgramId,
        accounts :=
          [{ pubkey := base58Encode d, isSigner := false },
           { pubkey := base58Encode m, isSigner := false },
           { pubkey := base58Encode o, isSigner := true }],
        instructionData := 3 :: u64le req.amount } := by
  simp [sendToken, hd, hm, ho, h0]

/-- Inversion: any successful `create_token` response carries the token
program id and the 35-byte mint-initialization payload shape. -/
theorem createToken_ok_fields {req : CreateTokenRequest}
    {r : InstructionResponse} (h : createToken req = Except.ok r) :
    r.programId = base58Encode tokenProgramId := by
  unfold createToken at h
  repeat' split at h
  all_goals cases h
  rfl

/-- Inversion: any successful `mint_token` response carries the token
program id and the `[7] ++ amount` payload. -/
theorem mintToken_ok_fields {req : MintTokenRequest}
    {r : InstructionResponse} (h : mintToken req = Except.ok r) :
    r.programId = base58Encode tokenProgramId ∧
    r.instructionData = 7 :: u64le req.amount := by
  unfold mintToken at h
  repeat' split at h
  all_goals cases h
  exact ⟨rfl, rfl⟩

/-- Inversion: any successful `send_sol` response carries the system
program id and the `[2] ++ lamports` payload. -/
theorem sendSol_ok_fields {req : SendSolRequest}
    {r : SendSolResponse} (h : sendSol req = Except.ok r) :
    r.programId = base58Encode systemProgramId ∧
    r.instructionData = 2 :: u64le req.lamports := by
  unfold sendSol at h
  repeat' split at h
  all_goals cases h
  exact ⟨rfl, rfl⟩

/-- Inversion: any successful `send_token` response carries the token
program id and the `[3] ++ amount` payload. -/
theorem sendToken_ok_fields {req : SendTokenRequest}
    {r : SendTokenResponse} (h : sendToken req = Except.ok r) :
    r.programId = base58Encode tokenProgramId ∧
    r.instructionData = 3 :: u64le req.amount := by
  unfold sendToken at h
  repeat' split at h
  all_goals cases h
  exact ⟨rfl, rfl⟩

/-- C1 counterexample: at a concrete valid request the mint account's role is
(signer, writable), not (not-signer, writable) as the claim states —
`AccountMeta::new(mint, true)` passes `true` for `is_signer`. -/
theorem c1_counterexample :
    ¬ ((createToken sampleCreateReq).toOption.map
        (fun r => r.accounts.map (fun a => (a.isSigner, a.isWritable))) =
      some [(false, true), (true, false)]) := by
  decide

/-- C1 (amended): for every mint-initialization request whose mint and
mint-authority addresses both decode to valid 32-byte identifiers, the
returned account-role list is exactly [mint (writable, signer),
mint-authority (read-only, signer)], in that order. -/
theorem c1_createToken_account_roles (req : CreateTokenRequest)
    (auth mint : List Nat)
    (hA : decodePubkey req.mintAuthority = some auth)
    (hM : decodePubkey req.mint = some mint) :
    ∀ r, createToken req = Except.ok r →
      r.accounts =
        [{ pubkey := base58Encode mint, isSigner := true,
           isWritable := true },
         { pubkey := base58Encode auth, isSigner := true,
           isWritable := false }] := by
  intro r h
  rw [createToken_eq_ok req hA hM] at h
  cases h
  rfl

/-- Witness for C1's amended theorem at `sampleCreateReq`. -/
theorem c1_witness :
    decodePubkey tokenProgramStr = some tokenProgramId ∧
    decodePubkey systemStr = some systemProgramId ∧
    createToken sampleCreateReq = Except.ok sampleCreateResp ∧
    sampleCreateResp.accounts =
      [{ pubkey := base58Encode systemProgramId, isSigner := true,
         isWritable := true },
       { pubkey := base58Encode tokenProgramId, isSigner := true,
         isWritable := false }] :=
  ⟨by decide, by decide, by decide,
   c1_createToken_account_roles sampleCreateReq tokenProgramId systemProgramId
     (by decide) (by decide) sampleCreateResp (by decide)⟩

/-- C2: for every valid mint-initialization request the payload is exactly
35 bytes, with byte 0 = 0 (discriminant), byte 1 = decimals, bytes 2..34
the mint-authority's raw 32 decoded bytes, and byte 34 = 0 (no freeze
authority). -/
theorem c2_createToken_payload (req : CreateTokenRequest)
    (auth mint : List Nat)
    (hA : decodePubkey req.mintAuthority = some auth)
    (hM : decodePubkey req.mint = some mint) :
    ∀ r, createToken req = Except.ok r →
      r.instructionData.length = 35 ∧
      r.instructionData.take 2 = [0, req.decimals] ∧
      (r.instructionData.drop 2).take 32 = auth ∧
      r.instructionData.drop 34 = [0] := by
  intro r h
  rw [createToken_eq_ok req hA hM] at h
  cases h
  have h32 : auth.length = 32 := decodePubkey_length hA
  refine ⟨by simp [h32], rfl, ?_, ?_⟩
  · show (auth ++ [0]).take 32 = auth
    exact List.take_left' h32
  · show (auth ++ [0]).drop 32 = [0]
    exact List.drop_left' h32

/-- Witness for C2 at `sampleCreateReq`. -/
theorem c2_witness :
    decodePubkey tokenProgramStr = some tokenProgramId ∧
    createToken sampleCreateReq = Except.ok sampleCreateResp ∧
    (sampleCreateResp.instructionData.length = 35 ∧
     sampleCreateResp.instructionData.take 2 = [0, 6] ∧
     (sampleCreateResp.instructionData.drop 2).take 32 = tokenProgramId ∧
     sampleCreateResp.instructionData.drop 34 = [0]) :=
  ⟨by decide, by decide,
   c2_createToken_payload sampleCreateReq tokenProgramId systemProgramId
     (by decide) (by decide) sampleCreateResp (by decide)⟩

/-- C3: Mint-To, Token-Transfer and Native-Transfer payloads are a one-byte
discriminant (7, 3 and 2 respectively) followed by the amount in 8-byte
little-endian encoding, and decoding the trailing 8 bytes as a
little-endian unsigned 64-bit integer reproduces the amount exactly, for
every amount in [0, 2^64). -/
theorem c3_amount_payload_roundtrip :
    (∀ (req : MintTokenRequest) (r : InstructionResponse),
       mintToken req = Except.ok r → req.amount < 2 ^ 64 →
       r.instructionData = 7 :: u64le req.amount ∧
       leBytesToNat (r.instructionData.drop 1) = req.amount) ∧
    (∀ (req : SendTokenRequest) (r : SendTokenResponse),
       sendToken req = Except.ok r → req.amount < 2 ^ 64 →
       r.instructionData = 3 :: u64le req.amount ∧
       leBytesToNat (r.instructionData.drop 1) = req.amount) ∧
    (∀ (req : SendSolRequest) (r : SendSolResponse),
       sendSol req = Except.ok r → req.lamports < 2 ^ 64 →
       r.instructionData = 2 :: u64le req.lamports ∧
       leBytesToNat (r.instructionData.drop 1) = req.lamports) := by
  refine ⟨?_, ?_, ?_⟩
  · intro req r h hlt
    obtain ⟨-, hdata⟩ := mintToken_ok_fields h
    refine ⟨hdata, ?_⟩
    rw [hdata]
    exact leBytesToNat_u64le (by omega)
  · intro req r h hlt
    obtain ⟨-, hdata⟩ := sendToken_ok_fields h
    refine ⟨hdata, ?_⟩
    rw [hdata]
    exact leBytesToNat_u64le (by omega)
  · intro req r h hlt
    obtain ⟨-, hdata⟩ := sendSol_ok_fields h
    refine ⟨hdata, ?_⟩
    rw [hdata]
    exact leBytesToNat_u64le (by omega)

/-- Witness for C3 at the three sample requests. -/
theorem c3_witness :
    mintToken sampleMintReq = Except.ok sampleMintResp ∧
    (sampleMintResp.instructionData = 7 :: u64le 1000 ∧
     leBytesToNat (sampleMintResp.instructionData.drop 1) = 1000) ∧
    sendToken sampleTokenReq = Except.ok sampleTokenResp ∧
    (sampleTokenResp.instructionData = 3 :: u64le 3 ∧
     leBytesToNat (sampleTokenResp.instructionData.drop 1) = 3) ∧
    sendSol sampleSolReq = Except.ok sampleSolResp ∧
    (sampleSolResp.instructionData = 2 :: u64le 5 ∧
     leBytesToNat (sampleSolResp.instructionData.drop 1) = 5) :=
  ⟨by decide,
   c3_amount_payload_roundtrip.1 sampleMintReq sampleMintResp
     (by decide) (by decide),
   by decide,
   c3_amount_payload_roundtrip.2.1 sampleTokenReq sampleTokenResp
     (by decide) (by decide),
   by decide,
   c3_amount_payload_roundtrip.2.2 sampleSolReq sampleSolResp
     (by decide) (by decide)⟩

/-- C4: with all embedded addresses valid, Native-Transfer and
Token-Transfer fail with their zero-amount validation error exactly when
the amount is 0, while Mint-To succeeds even for amount = 0 (it performs
no positivity check). -/
theorem c4_zero_amount :
    (∀ (req : SendSolRequest) (f t : List Nat),
       decodePubkey req.fromAddr = some f →
       decodePubkey req.toAddr = some t →
       (sendSol req = Except.error "Lamports must be greater than zero" ↔
         req.lamports = 0)) ∧
    (∀ (req : SendTokenRequest) (d m o : List Nat),
       decodePubkey req.destination = some d →
       decodePubkey req.mint = some m →
       decodePubkey req.owner = some o →
       (sendToken req = Except.error "Amount must be greater than zero" ↔
         req.amount = 0)) ∧
    (∀ (req : MintTokenRequest) (m d a : List Nat),
       decodePubkey req.mint = some m →
       decodePubkey req.destination = some d →
       decodePubkey req.authority = some a →
       req.amount = 0 →
       mintToken req = Except.ok
         { programId := base58Encode tokenProgramId,
           accounts :=
             [{ pubkey := base58Encode m, isSigner := false,
                isWritable := true },
              { pubkey := base58Encode d, isSigner := false,
                isWritable := true },
              { pubkey := base58Encode a, isSigner := true,
                isWritable := false }],
           instructionData := 7 :: u64le 0 }) := by
  refine ⟨?_, ?_, ?_⟩
  · intro req f t hf ht
    constructor
    · intro he
      by_contra h0
      rw [sendSol_eq_ok req hf ht h0] at he
      exact Except.noConfusion he
    · intro h0
      simp [sendSol, hf, ht, h0]
  · intro req d m o hd hm ho
    constructor
    · intro he
      by_contra h0
      rw [sendToken_eq_ok req hd hm ho h0] at he
      exact Except.noConfusion he
    · intro h0
      simp [sendToken, hd, hm, ho, h0]
  · intro req m d a hm hd ha h0
    have h := mintToken_eq_ok req hm hd ha
    rw [h0] at h
    exact h

/-- Witness for C4 at the zero-amount sample requests. -/
theorem c4_witness :
    (sendSol sampleSolReq0 = Except.error "Lamports must be greater than zero" ↔
      sampleSolReq0.lamports = 0) ∧
    (sendToken sampleTokenReq0 = Except.error "Amount must be greater than zero" ↔
      sampleTokenReq0.amount = 0) ∧
    mintToken sampleMintReq0 = Except.ok
      { programId := base58Encode tokenProgramId,
        accounts :=
          [{ pubkey := base58Encode systemProgramId, isSigner := false,
             isWritable := true },
           { pubkey := base58Encode systemProgramId, isSigner := false,
             isWritable := true },
           { pubkey := base58Encode tokenProgramId, isSigner := true,
             isWritable := false }],
        instructionData := 7 :: u64le 0 } :=
  ⟨c4_zero_amount.1 sampleSolReq0 systemProgramId tokenProgramId
     (by decide) (by decide),
   c4_zero_amount.2.1 sampleTokenReq0 systemProgramId tokenProgramId
     systemProgramId (by decide) (by decide) (by decide),
   c4_zero_amount.2.2 sampleMintReq0 systemProgramId systemProgramId
     tokenProgramId (by decide) (by decide) (by decide) rfl⟩

/-- C5: when the public key decodes to a structurally valid 32-byte key and
the signature decodes to a structurally valid 64-byte signature, a
signature that does not match the message is not an error: the call
succeeds and returns `valid = false` with the message and public key text
echoed. -/
theorem c5_verify_mismatch_ok
    (pkOk sigOk : List Nat → Bool)
    (verify : List Nat → List Nat → List Nat → Bool)
    (req : VerifyMessageRequest) (pk sig : List Nat)
    (hpk : base58Decode req.pubkey = some pk)
    (hpklen : pk.length = 32)
    (hpkOk : pkOk pk = true)
    (hsig : base64Decode req.signature = some sig)
    (hsiglen : sig.length = 64)
    (hsigOk : sigOk sig = true)
    (hmm : verify pk (strBytes req.message) sig = false) :
    verifyMessage pkOk sigOk verify req =
      Except.ok
        { valid := false, message := req.message, pubkey := req.pubkey } := by
  simp [verifyMessage, hpk, hpklen, hpkOk, hsig, hsiglen, hsigOk, hmm]

/-- Witness for C5: the all-true structural oracles, a never-matching
verification oracle, the all-zero key and an all-zero signature. -/
theorem c5_witness :
    base58Decode systemStr = some systemProgramId ∧
    base64Decode zeroSigStr = some (List.replicate 64 0) ∧
    verifyMessage anyBytesOk anyBytesOk neverVerify
      { message := "hello", signature := zeroSigStr, pubkey := systemStr } =
      Except.ok
        { valid := false, message := "hello", pubkey := systemStr } :=
  ⟨by decide, by decide,
   c5_verify_mismatch_ok anyBytesOk anyBytesOk neverVerify
     { message := "hello", signature := zeroSigStr, pubkey := systemStr }
     systemProgramId (List.replicate 64 0)
     (by decide) (by decide) rfl (by decide) (by decide) rfl rfl⟩

/-- C6: address decoding fails if and only if the string is not valid
base-58 or the decoded length is not exactly 32; the builders validate
their embedded address fields first and the first failing field
short-circuits the whole request with that field's error. -/
theorem c6_decode_failfast :
    (∀ s : String, decodePubkey s = none ↔
       (base58Decode s = none ∨
        ∃ b, base58Decode s = some b ∧ b.length ≠ 32)) ∧
    (∀ req : CreateTokenRequest, decodePubkey req.mintAuthority = none →
       createToken req = Except.error "Invalid mintAuthority pubkey") ∧
    (∀ (req : CreateTokenRequest) (auth : List Nat),
       decodePubkey req.mintAuthority = some auth →
       decodePubkey req.mint = none →
       createToken req = Except.error "Invalid mint pubkey") ∧
    (∀ req : MintTokenRequest, decodePubkey req.mint = none →
       mintToken req = Except.error "Invalid mint pubkey") := by
  refine ⟨?_, ?_, ?_, ?_⟩
  · intro s
    cases hb : base58Decode s with
    | none => simp [decodePubkey, hb]
    | some bs =>
      by_cases h32 : bs.length = 32 <;> simp [decodePubkey, hb, h32]
  · intro req h
    simp [createToken, h]
  · intro req auth hA h
    simp [createToken, hA, h]
  · intro req h
    simp [mintToken, h]

/-- Witness for C6: a non-base-58 string, a 1-byte base-58 string, and the
short-circuit errors at concrete requests. -/
theorem c6_witness :
    decodePubkey badB58Str = none ∧
    decodePubkey shortB58Str = none ∧
    createToken { mintAuthority := badB58Str, mint := systemStr,
                  decimals := 0 } =
      Except.error "Invalid mintAuthority pubkey" ∧
    createToken { mintAuthority := tokenProgramStr, mint := badB58Str,
                  decimals := 0 } =
      Except.error "Invalid mint pubkey" ∧
    mintToken { mint := badB58Str, destination := systemStr,
                authority := systemStr, amount := 1 } =
      Except.error "Invalid mint pubkey" :=
  ⟨(c6_decode_failfast.1 badB58Str).mpr (Or.inl (by decide)),
   (c6_decode_failfast.1 shortB58Str).mpr (Or.inr ⟨[0], by decide, by decide⟩),
   c6_decode_failfast.2.1 _ (by decide),
   c6_decode_failfast.2.2.1 _ tokenProgramId (by decide) (by decide),
   c6_decode_failfast.2.2.2 _ (by decide)⟩

/-- C7: the verifier is a total function of its text inputs; a public key
that is not valid base-58 and a signature that is not valid base64 take
distinct validation-error branches. -/
theorem c7_verify_errors :
    (∀ (pkOk sigOk : List Nat → Bool)
       (verify : List Nat → List Nat → List Nat → Bool)
       (req : VerifyMessageRequest),
       base58Decode req.pubkey = none →
       verifyMessage pkOk sigOk verify req =
         Except.error "Invalid base58 pubkey") ∧
    (∀ (pkOk sigOk : List Nat → Bool)
       (verify : List Nat → List Nat → List Nat → Bool)
       (req : VerifyMessageRequest) (pk : List Nat),
       base58Decode req.pubkey = some pk → pk.length = 32 →
       pkOk pk = true →
       base64Decode req.signature = none →
       verifyMessage pkOk sigOk verify req =
         Except.error "Invalid base64 signature") ∧
    (("Invalid base58 pubkey" : String) ≠ "Invalid base64 signature") ∧
    (∀ (pkOk sigOk : List Nat → Bool)
       (verify : List Nat → List Nat → List Nat → Bool)
       (req : VerifyMessageRequest),
       (∃ e, verifyMessage pkOk sigOk verify req = Except.error e) ∨
       (∃ d, verifyMessage pkOk sigOk verify req = Except.ok d)) := by
  refine ⟨?_, ?_, by decide, ?_⟩
  · intro pkOk sigOk verify req h
    simp [verifyMessage, h]
  · intro pkOk sigOk verify req pk hpk hlen hok hsig
    simp [verifyMessage, hpk, hlen, hok, hsig]
  · intro pkOk sigOk verify req
    cases h : verifyMessage pkOk sigOk verify req with
    | error e => exact Or.inl ⟨e, rfl⟩
    | ok d => exact Or.inr ⟨d, rfl⟩

/-- Witness for C7 at a malformed base-58 key and a malformed base64
signature. -/
theorem c7_witness :
    verifyMessage anyBytesOk anyBytesOk neverVerify
      { message := "m", signature := zeroSigStr, pubkey := badB58Str } =
      Except.error "Invalid base58 pubkey" ∧
    verifyMessage anyBytesOk anyBytesOk neverVerify
      { message := "m", signature := badB64Str, pubkey := systemStr } =
      Except.error "Invalid base64 signature" ∧
    (("Invalid base58 pubkey" : String) ≠ "Invalid base64 signature") :=
  ⟨c7_verify_errors.1 anyBytesOk anyBytesOk neverVerify _ (by decide),
   c7_verify_errors.2.1 anyBytesOk anyBytesOk neverVerify _ systemProgramId
     (by decide) (by decide) rfl (by decide),
   c7_verify_errors.2.2.1⟩

/-- C8: the program identifier returned on success is a fixed constant per
endpoint — the token program text for mint-initialization, mint-to and
token-transfer, and the system program text (32 ones) for native
transfer — independent of every request field. -/
theorem c8_program_ids :
    (∀ (req : CreateTokenRequest) (r : InstructionResponse),
       createToken req = Except.ok r → r.programId = tokenProgramStr) ∧
    (∀ (req : MintTokenRequest) (r : InstructionResponse),
       mintToken req = Except.ok r → r.programId = tokenProgramStr) ∧
    (∀ (req : SendTokenRequest) (r : SendTokenResponse),
       sendToken req = Except.ok r → r.programId = tokenProgramStr) ∧
    (∀ (req : SendSolRequest) (r : SendSolResponse),
       sendSol req = Except.ok r →
       r.programId = "11111111111111111111111111111111") := by
  refine ⟨?_, ?_, ?_, ?_⟩
  · intro req r h
    rw [createToken_ok_fields h, base58Encode_tokenProgramId]
  · intro req r h
    rw [(mintToken_ok_fields h).1, base58Encode_tokenProgramId]
  · intro req r h
    rw [(sendToken_ok_fields h).1, base58Encode_tokenProgramId]
  · intro req r h
    rw [(sendSol_ok_fields h).1, base58Encode_systemProgramId]

/-- Witness for C8 at the four sample requests. -/
theorem c8_witness :
    createToken sampleCreateReq = Except.ok sampleCreateResp ∧
    sampleCreateResp.programId = tokenProgramStr ∧
    mintToken sampleMintReq = Except.ok sampleMintResp ∧
    sampleMintResp.programId = tokenProgramStr ∧
    sendToken sampleTokenReq = Except.ok sampleTokenResp ∧
    sampleTokenResp.programId = tokenProgramStr ∧
    sendSol sampleSolReq = Except.ok sampleSolResp ∧
    sampleSolResp.programId = "11111111111111111111111111111111" :=
  ⟨by decide, c8_program_ids.1 sampleCreateReq sampleCreateResp (by decide),
   by decide, c8_program_ids.2.1 sampleMintReq sampleMintResp (by decide),
   by decide, c8_program_ids.2.2.1 sampleTokenReq sampleTokenResp (by decide),
   by decide, c8_program_ids.2.2.2 sampleSolReq sampleSolResp (by decide)⟩

/-- C9: every amount-bearing builder validates its address fields, in its
fixed per-endpoint order (mint-to: mint, destination, authority; native
transfer: from, to; token transfer: destination, mint, owner), before any
zero-amount check, so a request with an invalid address and amount = 0
gets the first invalid address's error, never the amount error. -/
theorem c9_address_validation_order :
    (∀ req : MintTokenRequest, req.amount = 0 →
       decodePubkey req.mint = none →
       mintToken req = Except.error "Invalid mint pubkey") ∧
    (∀ (req : MintTokenRequest) (m : List Nat), req.amount = 0 →
       decodePubkey req.mint = some m →
       decodePubkey req.destination = none →
       mintToken req = Except.error "Invalid destination pubkey") ∧
    (∀ (req : MintTokenRequest) (m d : List Nat), req.amount = 0 →
       decodePubkey req.mint = some m →
       decodePubkey req.destination = some d →
       decodePubkey req.authority = none →
       mintToken req = Except.error "Invalid authority pubkey") ∧
    (∀ req : SendSolRequest, req.lamports = 0 →
       decodePubkey req.fromAddr = none →
       sendSol req = Except.error "Invalid sender pubkey") ∧
    (∀ (req : SendSolRequest) (f : List Nat), req.lamports = 0 →
       decodePubkey req.fromAddr = some f →
       decodePubkey req.toAddr = none →
       sendSol req = Except.error "Invalid recipient pubkey") ∧
    (∀ req : SendTokenRequest, req.amount = 0 →
       decodePubkey req.destination = none →
       sendToken req = Except.error "Invalid destination pubkey") ∧
    (∀ (req : SendTokenRequest) (d : List Nat), req.amount = 0 →
       decodePubkey req.destination = some d →
       decodePubkey req.mint = none →
       sendToken req = Except.error "Invalid mint pubkey") ∧
    (∀ (req : SendTokenRequest) (d m : List Nat), req.amount = 0 →
       decodePubkey req.destination = some d →
       decodePubkey req.mint = some m →
       decodePubkey req.owner = none →
       sendToken req = Except.error "Invalid owner pubkey") := by
  refine ⟨?_, ?_, ?_, ?_, ?_, ?_, ?_, ?_⟩
  · intro req _ h
    simp [mintToken, h]
  · intro req m _ hm h
    simp [mintToken, hm, h]
  · intro req m d _ hm hd h
    simp [mintToken, hm, hd, h]
  · intro req _ h
    simp [sendSol, h]
  · intro req f _ hf h
    simp [sendSol, hf, h]
  · intro req _ h
    simp [sendToken, h]
  · intro req d _ hd h
    simp [sendToken, hd, h]
  · intro req d m _ hd hm h
    simp [sendToken, hd, hm, h]

/-- Witness for C9: zero-amount requests with one invalid address each. -/
theorem c9_witness :
    sendSol { fromAddr := badB58Str, toAddr := systemStr, lamports := 0 } =
      Except.error "Invalid sender pubkey" ∧
    sendSol { fromAddr := systemStr, toAddr := badB58Str, lamports := 0 } =
      Except.error "Invalid recipient pubkey" ∧
    sendToken { destination := systemStr, mint := badB58Str,
                owner := systemStr, amount := 0 } =
      Except.error "Invalid mint pubkey" ∧
    mintToken { mint := systemStr, destination := systemStr,
                authority := badB58Str, amount := 0 } =
      Except.error "Invalid authority pubkey" :=
  ⟨c9_address_validation_order.2.2.2.1 _ rfl (by decide),
   c9_address_validation_order.2.2.2.2.1 _ systemProgramId rfl
     (by decide) (by decide),
   c9_address_validation_order.2.2.2.2.2.2.1 _ systemProgramId rfl
     (by decide) (by decide),
   c9_address_validation_order.2.2.1 _ systemProgramId systemProgramId rfl
     (by decide) (by decide) (by decide)⟩

/-- C10: for every keypair the generator returns, the secret base64-decodes
to exactly 64 bytes whose last 32 bytes are the raw public key, so
base-58-encoding bytes 32..64 of the decoded secret yields exactly the
returned pubkey text. -/
theorem c10_keypair_consistency
    (derive : List Nat → List Nat) (seed : List Nat)
    (hs : seed.length = 32) (hd : (derive seed).length = 32)
    (hsb : ∀ b ∈ seed, b < 256) (hdb : ∀ b ∈ derive seed, b < 256) :
    base64Decode (generateKeypair derive seed).secret =
      some (seed ++ derive seed) ∧
    (seed ++ derive seed).length = 64 ∧
    (seed ++ derive seed).drop 32 = derive seed ∧
    base58Encode ((seed ++ derive seed).drop 32) =
      (generateKeypair derive seed).pubkey := by
  have hall : ∀ b ∈ seed ++ derive seed, b < 256 := by
    intro b hb
    rcases List.mem_append.1 hb with h | h
    · exact hsb b h
    · exact hdb b h
  have hdrop : (seed ++ derive seed).drop 32 = derive seed :=
    List.drop_left' hs
  refine ⟨?_, by simp [hs, hd], hdrop, by rw [hdrop]; rfl⟩
  show b64DecodeList (b64EncodeList (seed ++ derive seed)) =
    some (seed ++ derive seed)
  exact b64DecodeList_b64EncodeList _ hall

/-- Witness for C10 with the all-zero seed and a constant derivation. -/
theorem c10_witness :
    base64Decode (generateKeypair constDerive (List.replicate 32 0)).secret =
      some (List.replicate 32 0 ++ constDerive (List.replicate 32 0)) ∧
    (List.replicate 32 0 ++ constDerive (List.replicate 32 0)).length = 64 ∧
    (List.replicate 32 0 ++ constDerive (List.replicate 32 0)).drop 32 =
      constDerive (List.replicate 32 0) ∧
    base58Encode
        ((List.replicate 32 0 ++ constDerive (List.replicate 32 0)).drop 32) =
      (generateKeypair constDerive (List.replicate 32 0)).pubkey :=
  c10_keypair_consistency constDerive (List.replicate 32 0)
    (by decide) (by decide) (by decide) (by decide)
